import Mathlib

/-!
Verification development for the Index-Array-API repository.

The program (a Max/MSP `[js]` script, `index_array.js` plus the driver
examples in `example.js`) generates the vertex-index topology of a
rectangular grid surface in one of two draw modes (QUAD or TRI) and applies
a per-face visibility mask to it.  This file gives a shallow embedding of
that code: JavaScript objects become Lean structures, the in-place mutation
performed by the methods becomes explicit state passing, JavaScript array
reads `a[i]` (which yield `undefined` out of bounds) become `List.getElem?`
returning `Option`, and the `for` loops become maps over `List.range`.
-/

namespace IndexArray

/-- `var QUAD = 4;` -/
def QUAD : Nat := 4

/-- `var TRI = 3;` -/
def TRI : Nat := 3

/-- The `Face` object: an index tuple together with a visibility value.
In the source, `_visible` holds whatever JavaScript value was last stored by
`set_visible`; `Filter.apply` stores `mask[i]`, which is `undefined` when
`i` is outside the bounds of the mask.  We model the stored value as
`Option Int`, `none` standing for `undefined`. -/
structure Face where
  index_array : List Nat
  visible : Option Int
deriving DecidableEq, Repr

/-- JavaScript truthiness of a stored visibility value: `undefined` and `0`
are falsy, every other number is truthy. -/
def truthy : Option Int → Bool
  | none => false
  | some n => n != 0

/-- The `Surface` object: `_dim` (as `(cols, rows)`, i.e. the JS array
`[dim[0], dim[1]]`), `_face_array`, and `_draw_mode` (a plain number,
`4` or `3` in intended use). -/
structure Surface where
  dim : Nat × Nat
  face_array : List Face
  draw_mode : Nat
deriving DecidableEq, Repr

/-- The iteration contexts `(i, j)` of the ascending nested loop
`for (i = 0; i < dim[1]-1; i++) for (j = 0; j < dim[0]-1; j++)`,
in execution order.  This loop shape is shared by `quad_grid`, the first
pass of `tri_grid`, and the ordered branch of `Filter.generate`. -/
def grid_ctx (cols rows : Nat) : List (Nat × Nat) :=
  (List.range (rows - 1)).flatMap (fun i =>
    (List.range (cols - 1)).map (fun j => (i, j)))

/-- The iteration contexts `(i, j)` of the descending nested loop
`for (i = dim[1]-1; i > 0; i--) for (j = dim[0]; j > 1; j--)`,
in execution order (`i` runs `rows-1, …, 1`; `j` runs `cols, …, 2`).
This loop shape is shared by the second pass of `tri_grid` and the TRI part
of the ordered branch of `Filter.generate`. -/
def tri_ctx2 (cols rows : Nat) : List (Nat × Nat) :=
  (List.range (rows - 1)).flatMap (fun t =>
    (List.range (cols - 1)).map (fun u => (rows - 1 - t, cols - u)))

/-- Body of the `quad_grid` loop at context `(i, j)`:
`start = i * dim[0]`, face `[start+j+1, start+j, start+j+dim[0],
start+j+dim[0]+1]`, created visible (`1`). -/
def quad_face (cols : Nat) (p : Nat × Nat) : Face :=
  { index_array := [p.1 * cols + p.2 + 1, p.1 * cols + p.2,
      p.1 * cols + p.2 + cols, p.1 * cols + p.2 + cols + 1],
    visible := some 1 }

/-- Body of the first `tri_grid` loop at context `(i, j)`:
`start = i * dim[0] + 1`, face `[start+j, start+j+dim[0]-1, start+j+dim[0]]`,
created visible. -/
def tri_face1 (cols : Nat) (p : Nat × Nat) : Face :=
  { index_array := [p.1 * cols + 1 + p.2, p.1 * cols + 1 + p.2 + cols - 1,
      p.1 * cols + 1 + p.2 + cols],
    visible := some 1 }

/-- Body of the second `tri_grid` loop at context `(i, j)`:
`start = (i + 1) * dim[0]`, face `[start-j-dim[0], start-j, start-j-dim[0]+1]`,
created visible. -/
def tri_face2 (cols : Nat) (p : Nat × Nat) : Face :=
  { index_array := [(p.1 + 1) * cols - p.2 - cols, (p.1 + 1) * cols - p.2,
      (p.1 + 1) * cols - p.2 - cols + 1],
    visible := some 1 }

/-- `Surface.prototype.quad_grid`: rebuild the face array from the ascending
nested loop. -/
def Surface.quad_grid (s : Surface) : Surface :=
  { s with face_array := (grid_ctx s.dim.1 s.dim.2).map (quad_face s.dim.1) }

/-- `Surface.prototype.tri_grid`: rebuild the face array from the two
passes (ascending loop, then descending loop). -/
def Surface.tri_grid (s : Surface) : Surface :=
  { s with face_array :=
      (grid_ctx s.dim.1 s.dim.2).map (tri_face1 s.dim.1)
        ++ (tri_ctx2 s.dim.1 s.dim.2).map (tri_face2 s.dim.1) }

/-- `Surface.prototype.generate`:
`this.draw_mode() == QUAD ? this.quad_grid() : this.tri_grid()`. -/
def Surface.generate (s : Surface) : Surface :=
  if s.draw_mode = QUAD then s.quad_grid else s.tri_grid

/-- `Surface.prototype.face_count`: length of the face array. -/
def Surface.face_count (s : Surface) : Nat :=
  s.face_array.length

/-- The all-zero tuple `draw_mode == QUAD ? [0,0,0,0] : [0,0,0]` substituted
for a hidden face by `index_array`. -/
def zero_tuple (draw_mode : Nat) : List Nat :=
  if draw_mode = QUAD then [0, 0, 0, 0] else [0, 0, 0]

/-- `Surface.prototype.index_array`: map each face to its tuple if its
visibility is truthy, else to the all-zero tuple, then flatten. -/
def Surface.index_array (s : Surface) : List Nat :=
  (s.face_array.map (fun face =>
    if truthy face.visible then face.index_array else zero_tuple s.draw_mode)).flatten

/-- The `forEach` body of `Filter.prototype.apply`: starting at face index
`i`, set the visibility of each face to `1` (the reset) and then to `mask[i]`
(an out-of-bounds read yielding `undefined`, i.e. `none`). -/
def apply_vis (mask : List Int) : Nat → List Face → List Face
  | _, [] => []
  | i, face :: rest =>
      let reset : Face := { face with visible := some 1 }
      { reset with visible := mask[i]? } :: apply_vis mask (i + 1) rest

/-- The `Filter` object: its `_mask` and (the state of) the `_surface` it
references.  Mask elements are the numbers the generating predicates
return, modelled as `Int`. -/
structure Filter where
  mask : List Int
  surface : Surface
deriving DecidableEq, Repr

/-- `Filter.prototype.apply`: overwrite the visibility of every face from the
mask, positionally. -/
def Filter.apply (fl : Filter) : Filter :=
  { fl with surface :=
      { fl.surface with face_array := apply_vis fl.mask 0 fl.surface.face_array } }

/-- The iteration contexts of the ordered branch of
`Filter.prototype.generate`: the ascending nested loop over
`(dim[1]-1) × (dim[0]-1)`, followed, when the draw mode is TRI, by the
descending nested loop — exactly the loop shapes of `quad_grid` and of the
second pass of `tri_grid`. -/
def gen_ctx (s : Surface) : List (Nat × Nat) :=
  grid_ctx s.dim.1 s.dim.2
    ++ (if s.draw_mode = TRI then tri_ctx2 s.dim.1 s.dim.2 else [])

/-- `Filter.prototype.generate(func, order)` with `order` truthy: push
`func()` at every context of the ordered traversal (the callback reads the
shared loop variables `i` and `j`, so it is modelled as a function of the
context), store the result as the mask, and apply it. -/
def Filter.generate_ordered (func : Nat → Nat → Int) (fl : Filter) : Filter :=
  Filter.apply
    { fl with mask := (gen_ctx fl.surface).map (fun p => func p.1 p.2) }

/-- `Filter.prototype.generate(func, order)` with `order` falsy: push
`func()` once per face (`for (i = 0; i < face_count; i++)`; the callback
may read the shared counter `i`, so it is modelled as a function of it),
store the result as the mask, and apply it. -/
def Filter.generate_unordered (func : Nat → Int) (fl : Filter) : Filter :=
  Filter.apply
    { fl with mask := (List.range fl.surface.face_count).map func }

/-- `reverse` from `example.js`: complement every element of the current
mask (`1 - bit`), set it as the new mask, and apply. -/
def reverse_msg (fl : Filter) : Filter :=
  Filter.apply { fl with mask := fl.mask.map (fun bit => 1 - bit) }

/-- The anonymous predicate of `spiral` from `example.js`:
`i < (g.surface.dim()[0] * (i % g.surface.dim()[1])) ? 0 : 1`, where `i` is
the shared loop counter of the non-ordered traversal.  (`Nat` arithmetic
matches the JavaScript arithmetic whenever `dim()[1] ≥ 1`.) -/
def spiral_pred (s : Surface) (i : Nat) : Int :=
  if i < s.dim.1 * (i % s.dim.2) then 0 else 1

/-- `spiral` from `example.js`: `g.filter.generate(func)` with the spiral
predicate — the second argument is omitted, hence falsy, so the non-ordered
traversal runs. -/
def spiral_msg (fl : Filter) : Filter :=
  Filter.generate_unordered (spiral_pred fl.surface) fl

/-- The global state touched by the driver functions of `index_array.js`:
the surface, the mask of the filter, and the draw flag.  (In the source,
`g.filter` holds a reference to `g.surface`; the single surface here plays
both roles.) -/
structure GState where
  surface : Surface
  mask : List Int
  draw : Bool
deriving DecidableEq, Repr

/-- The guard of the `dim` message handler:
`a.length == 2 && a[0] > 0 && a[1] > 0` (arguments arrive as arbitrary
numbers, modelled as `Int`). -/
def dim_ok (a : List Int) : Prop :=
  a.length = 2 ∧ 0 < a.getD 0 0 ∧ 0 < a.getD 1 0

instance (a : List Int) : Decidable (dim_ok a) := by
  unfold dim_ok; infer_instance

/-- The `dim` message handler: when the guard passes, store the new
dimension, regenerate the surface and raise the draw flag; otherwise do
nothing. -/
def dim_msg (a : List Int) (g : GState) : GState :=
  if dim_ok a then
    { g with
      surface := ({ g.surface with
        dim := ((a.getD 0 0).toNat, (a.getD 1 0).toNat) }).generate,
      draw := true }
  else g

/-- The `list` message handler: `g.filter.set_mask(a); g.filter.apply();
g.draw = true;` — no length check of any kind. -/
def list_msg (a : List Int) (g : GState) : GState :=
  let fl := Filter.apply { mask := a, surface := g.surface }
  { surface := fl.surface, mask := fl.mask, draw := true }

/-- A concrete 3×3 QUAD surface with its faces generated, used as test
input below. -/
def surface33quad : Surface :=
  Surface.generate { dim := (3, 3), face_array := [], draw_mode := QUAD }

/-- A concrete 3×3 TRI surface with its faces generated. -/
def surface33tri : Surface :=
  Surface.generate { dim := (3, 3), face_array := [], draw_mode := TRI }

/-- A global state holding the generated 3×3 QUAD surface, used as test
input below. -/
def g33 : GState := { surface := surface33quad, mask := [], draw := false }

/-- A filter on the 3×3 TRI surface. -/
def flTri : Filter := { mask := [], surface := surface33tri }

/-- The 3×3 QUAD filter after applying the mask `[0, 1, 0, 1]`. -/
def fl33applied : Filter :=
  Filter.apply { mask := [0, 1, 0, 1], surface := surface33quad }

/-- The surface of `fl33applied`: faces 0 and 2 hidden. -/
def s33masked : Surface := fl33applied.surface

/-! ### Layout of the nested-loop lists -/

theorem length_flatMap_range_map {α : Type} (n m : Nat) (g : Nat → Nat → α) :
    ((List.range n).flatMap (fun i => (List.range m).map (g i))).length = n * m := by
  induction n with
  | zero => simp
  | succ n ih =>
      rw [List.range_succ, List.flatMap_append, List.length_append, ih]
      simp [Nat.succ_mul]

theorem getElem?_flatMap_range_map {α : Type} (n m : Nat) (g : Nat → Nat → α)
    (i j : Nat) (hi : i < n) (hj : j < m) :
    ((List.range n).flatMap (fun i => (List.range m).map (g i)))[i * m + j]? =
      some (g i j) := by
  induction n with
  | zero => omega
  | succ n ih =>
      rw [List.range_succ, List.flatMap_append]
      rcases Nat.lt_or_ge i n with h | h
      · rw [List.getElem?_append_left]
        · exact ih h
        · rw [length_flatMap_range_map]
          calc i * m + j < i * m + m := by omega
            _ = (i + 1) * m := by ring
            _ ≤ n * m := Nat.mul_le_mul_right m (by omega)
      · have hin : i = n := by omega
        subst hin
        rw [List.getElem?_append_right (by rw [length_flatMap_range_map]; omega)]
        rw [length_flatMap_range_map, Nat.add_sub_cancel_left]
        simp [List.getElem?_map, List.getElem?_range hj]

theorem grid_ctx_length (cols rows : Nat) :
    (grid_ctx cols rows).length = (rows - 1) * (cols - 1) :=
  length_flatMap_range_map _ _ _

theorem tri_ctx2_length (cols rows : Nat) :
    (tri_ctx2 cols rows).length = (rows - 1) * (cols - 1) :=
  length_flatMap_range_map _ _ _

theorem grid_ctx_getElem? (cols rows i j : Nat)
    (hi : i < rows - 1) (hj : j < cols - 1) :
    (grid_ctx cols rows)[i * (cols - 1) + j]? = some (i, j) :=
  getElem?_flatMap_range_map _ _ _ i j hi hj

theorem tri_ctx2_getElem? (cols rows t u : Nat)
    (ht : t < rows - 1) (hu : u < cols - 1) :
    (tri_ctx2 cols rows)[t * (cols - 1) + u]? = some (rows - 1 - t, cols - u) :=
  getElem?_flatMap_range_map _ _ _ t u ht hu

/-! ### Behaviour of the apply loop -/

theorem apply_vis_length (mask : List Int) :
    ∀ (i : Nat) (l : List Face), (apply_vis mask i l).length = l.length := by
  intro i l
  induction l generalizing i with
  | nil => rfl
  | cons face rest ih => simp [apply_vis, ih]

theorem apply_vis_getElem? (mask : List Int) :
    ∀ (i : Nat) (l : List Face) (k : Nat),
      (apply_vis mask i l)[k]? =
        (l[k]?).map (fun fc => { fc with visible := mask[i + k]? }) := by
  intro i l
  induction l generalizing i with
  | nil => intro k; simp [apply_vis]
  | cons face rest ih =>
      intro k
      match k with
      | 0 => simp [apply_vis]
      | k + 1 =>
          simp only [apply_vis, List.getElem?_cons_succ, ih (i + 1) k]
          have : i + 1 + k = i + (k + 1) := by omega
          rw [this]

theorem apply_vis_overwrite (m m' : List Int) :
    ∀ (i : Nat) (l : List Face), apply_vis m i (apply_vis m' i l) = apply_vis m i l := by
  intro i l
  induction l generalizing i with
  | nil => rfl
  | cons face rest ih => simp [apply_vis, ih]

theorem apply_vis_congr (m₁ m₂ : List Int) :
    ∀ (i : Nat) (l : List Face),
      (∀ t, t < l.length → m₁[i + t]? = m₂[i + t]?) →
      apply_vis m₁ i l = apply_vis m₂ i l := by
  intro i l
  induction l generalizing i with
  | nil => intro _; rfl
  | cons face rest ih =>
      intro h
      have h0 : m₁[i]? = m₂[i]? := by
        have := h 0 (by simp)
        simpa using this
      simp only [apply_vis, h0]
      refine congrArg _ (ih (i + 1) ?_)
      intro t ht
      have := h (t + 1) (by simpa using Nat.succ_lt_succ ht)
      have harith : i + (t + 1) = i + 1 + t := by omega
      rwa [harith] at this


/-- C1: for a surface with `dim = (cols, rows)`, `cols ≥ 2`, `rows ≥ 2`, and
draw mode QUAD, `quad_grid` produces exactly `(rows-1)*(cols-1)` faces,
ordered stack-major then sector-minor: the face generated for stack `i` and
sector `j` sits at flat position `i*(cols-1)+j` and its index tuple is
`[i*cols+j+1, i*cols+j, i*cols+j+cols, i*cols+j+cols+1]`; for `dim = (3,3)`
the flattened index array with all faces visible is
`[1,0,3,4, 2,1,4,5, 4,3,6,7, 5,4,7,8]`. -/
theorem C1_quad_grid (s : Surface) (cols rows : Nat)
    (hdim : s.dim = (cols, rows)) (hc : 2 <= cols) (hr : 2 <= rows)
    (hmode : s.draw_mode = QUAD) :
    (s.quad_grid).face_count = (rows - 1) * (cols - 1) ∧
    (∀ i j, i < rows - 1 → j < cols - 1 →
      ((s.quad_grid).face_array[i * (cols - 1) + j]?).map Face.index_array =
        some [i * cols + j + 1, i * cols + j, i * cols + j + cols,
          i * cols + j + cols + 1]) ∧
    surface33quad.index_array = [1, 0, 3, 4, 2, 1, 4, 5, 4, 3, 6, 7, 5, 4, 7, 8] := by
  refine ⟨?_, ?_, by decide⟩
  · simp [Surface.face_count, Surface.quad_grid, hdim, grid_ctx_length]
  · intro i j hi hj
    simp only [Surface.quad_grid, hdim, List.getElem?_map]
    rw [grid_ctx_getElem? cols rows i j hi hj]
    rfl

/-- C2: for a surface with `dim = (cols, rows)`, `cols ≥ 2`, `rows ≥ 2`, and
draw mode TRI, `tri_grid` produces exactly `2*(rows-1)*(cols-1)` faces in two
passes: pass 1 (`i` ascending, `j` ascending, `start = i*cols+1`) emits
`[start+j, start+j+cols-1, start+j+cols]` at flat position `i*(cols-1)+j`;
pass 2 (`i` from `rows-1` down to `1`, `j` from `cols` down to `2`,
`start = (i+1)*cols`) emits `[start-j-cols, start-j, start-j-cols+1]` at flat
position `(rows-1)*(cols-1) + (rows-1-i)*(cols-1) + (cols-j)`; for
`dim = (3,3)` the first face has indices `[1, 3, 4]`. -/
theorem C2_tri_grid (s : Surface) (cols rows : Nat)
    (hdim : s.dim = (cols, rows)) (hc : 2 <= cols) (hr : 2 <= rows)
    (hmode : s.draw_mode = TRI) :
    (s.tri_grid).face_count = 2 * ((rows - 1) * (cols - 1)) ∧
    (∀ i j, i < rows - 1 → j < cols - 1 →
      ((s.tri_grid).face_array[i * (cols - 1) + j]?).map Face.index_array =
        some [i * cols + 1 + j, i * cols + 1 + j + cols - 1,
          i * cols + 1 + j + cols]) ∧
    (∀ i j, 1 ≤ i → i ≤ rows - 1 → 2 ≤ j → j ≤ cols →
      ((s.tri_grid).face_array[(rows - 1) * (cols - 1) +
          ((rows - 1 - i) * (cols - 1) + (cols - j))]?).map Face.index_array =
        some [(i + 1) * cols - j - cols, (i + 1) * cols - j,
          (i + 1) * cols - j - cols + 1]) ∧
    (surface33tri.face_array[0]?).map Face.index_array = some [1, 3, 4] := by
  refine ⟨?_, ?_, ?_, by decide⟩
  · simp [Surface.face_count, Surface.tri_grid, hdim, grid_ctx_length,
      tri_ctx2_length]
    ring
  · intro i j hi hj
    simp only [Surface.tri_grid, hdim]
    rw [List.getElem?_append_left (by
      rw [List.length_map, grid_ctx_length]
      calc i * (cols - 1) + j < i * (cols - 1) + (cols - 1) := by omega
        _ = (i + 1) * (cols - 1) := by ring
        _ ≤ (rows - 1) * (cols - 1) := Nat.mul_le_mul_right _ (by omega))]
    rw [List.getElem?_map, grid_ctx_getElem? cols rows i j hi hj]
    rfl
  · intro i j h1 h2 h3 h4
    simp only [Surface.tri_grid, hdim]
    rw [List.getElem?_append_right (by
      rw [List.length_map, grid_ctx_length]
      exact Nat.le_add_right _ _)]
    rw [List.length_map, grid_ctx_length, Nat.add_sub_cancel_left]
    rw [List.getElem?_map,
      tri_ctx2_getElem? cols rows (rows - 1 - i) (cols - j) (by omega) (by omega)]
    have e1 : rows - 1 - (rows - 1 - i) = i := by omega
    have e2 : cols - (cols - j) = j := by omega
    rw [e1, e2]
    rfl

/-- C3: for a surface whose face array was generated for its current draw
mode, ordered `Filter.generate` invokes the callback exactly `face_count()`
times — `(rows-1)*(cols-1)` times, plus the same number again in the
far-to-near pass when the draw mode is TRI — the resulting mask has length
`face_count()`, mask element `k` is the callback result at the `k`-th
context of the traversal, and `apply` writes mask element `k` onto face `k`
(the traversal contexts are the very lists from which the faces are
generated). -/
theorem C3_generate_ordered (func : Nat → Nat → Int) (fl : Filter)
    (cols rows : Nat) (hdim : fl.surface.dim = (cols, rows))
    (hc : 2 ≤ cols) (hr : 2 ≤ rows)
    (hmode : fl.surface.draw_mode = QUAD ∨ fl.surface.draw_mode = TRI)
    (hgen : fl.surface.face_array = (fl.surface.generate).face_array) :
    (Filter.generate_ordered func fl).mask.length = fl.surface.face_count ∧
    (Filter.generate_ordered func fl).mask.length =
      (rows - 1) * (cols - 1) +
        (if fl.surface.draw_mode = TRI then (rows - 1) * (cols - 1) else 0) ∧
    (∀ k : Nat, (Filter.generate_ordered func fl).mask[k]? =
      ((gen_ctx fl.surface)[k]?).map (fun p => func p.1 p.2)) ∧
    (∀ k : Nat, (Filter.generate_ordered func fl).surface.face_array[k]? =
      (fl.surface.face_array[k]?).map (fun fc =>
        { fc with visible := (Filter.generate_ordered func fl).mask[k]? })) := by
  have hctx : (gen_ctx fl.surface).length =
      (rows - 1) * (cols - 1) +
        (if fl.surface.draw_mode = TRI then (rows - 1) * (cols - 1) else 0) := by
    by_cases h : fl.surface.draw_mode = TRI
    · simp [gen_ctx, hdim, h, grid_ctx_length, tri_ctx2_length]
    · simp [gen_ctx, hdim, h, grid_ctx_length]
  have hmask : (Filter.generate_ordered func fl).mask =
      (gen_ctx fl.surface).map (fun p => func p.1 p.2) := rfl
  have hfc : fl.surface.face_count =
      (rows - 1) * (cols - 1) +
        (if fl.surface.draw_mode = TRI then (rows - 1) * (cols - 1) else 0) := by
    rcases hmode with h | h
    · have hne : ¬fl.surface.draw_mode = TRI := by rw [h]; decide
      rw [Surface.face_count, hgen, Surface.generate, if_pos h]
      simp [Surface.quad_grid, hdim, grid_ctx_length, hne]
    · have hne : ¬fl.surface.draw_mode = QUAD := by rw [h]; decide
      rw [Surface.face_count, hgen, Surface.generate, if_neg hne]
      simp [Surface.tri_grid, hdim, grid_ctx_length, tri_ctx2_length, h]
  refine ⟨?_, ?_, ?_, ?_⟩
  · rw [hmask, List.length_map, hctx, hfc]
  · rw [hmask, List.length_map, hctx]
  · intro k
    rw [hmask, List.getElem?_map]
  · intro k
    have h := apply_vis_getElem?
      ((gen_ctx fl.surface).map (fun p => func p.1 p.2)) 0 fl.surface.face_array k
    simpa [Filter.generate_ordered, Filter.apply] using h

theorem flatten_uniform_length {α : Type} (W : Nat) :
    ∀ L : List (List α), (∀ l ∈ L, l.length = W) →
      L.flatten.length = L.length * W := by
  intro L
  induction L with
  | nil => intro _; simp
  | cons x xs ih =>
      intro h
      simp only [List.flatten_cons, List.length_append, List.length_cons]
      rw [ih (fun l hl => h l (List.mem_cons_of_mem _ hl)),
        h x (List.mem_cons_self _ _)]
      ring

theorem flatten_uniform_block {α : Type} (W : Nat) :
    ∀ (L : List (List α)) (k : Nat) (l : List α),
      (∀ l₂ ∈ L, l₂.length = W) → L[k]? = some l →
      (L.flatten.drop (k * W)).take W = l := by
  intro L
  induction L with
  | nil => intro k l _ h; simp at h
  | cons x xs ih =>
      intro k l h hk
      match k with
      | 0 =>
          have hx : x.length = W := h x (List.mem_cons_self _ _)
          simp only [List.getElem?_cons_zero, Option.some.injEq] at hk
          subst hk
          simp only [List.flatten_cons, Nat.zero_mul, List.drop_zero]
          rw [← hx, List.take_left]
      | k + 1 =>
          simp only [List.getElem?_cons_succ] at hk
          have hx : x.length = W := h x (List.mem_cons_self _ _)
          have harith : (k + 1) * W = x.length + k * W := by rw [hx]; ring
          simp only [List.flatten_cons]
          rw [harith, List.drop_append]
          exact ih k l (fun l₂ hl => h l₂ (List.mem_cons_of_mem _ hl)) hk

theorem generate_width (s : Surface) :
    ∀ fc ∈ (s.generate).face_array,
      fc.index_array.length = (zero_tuple s.draw_mode).length := by
  intro fc hfc
  by_cases h : s.draw_mode = QUAD
  · rw [Surface.generate, if_pos h] at hfc
    simp only [Surface.quad_grid, List.mem_map] at hfc
    obtain ⟨p, _, rfl⟩ := hfc
    simp [quad_face, zero_tuple, h]
  · rw [Surface.generate, if_neg h] at hfc
    simp only [Surface.tri_grid, List.mem_append, List.mem_map] at hfc
    rcases hfc with ⟨p, _, rfl⟩ | ⟨p, _, rfl⟩
    · simp [tri_face1, zero_tuple, h]
    · simp [tri_face2, zero_tuple, h]

/-- C4: for a surface whose face tuples are those generated for its current
draw mode, `index_array()` has length `face_count()` times the tuple width
(4 for QUAD, 3 otherwise); block `k` of the flattened sequence is face `k`'s
own tuple when the face is visible and the all-zero tuple when it is hidden;
and the length is unchanged under any reassignment of the visibility flags. -/
theorem C4_index_array (s : Surface)
    (hgen : s.face_array.map Face.index_array =
      (s.generate).face_array.map Face.index_array) :
    s.index_array.length = s.face_count * (zero_tuple s.draw_mode).length ∧
    (zero_tuple s.draw_mode).length = (if s.draw_mode = QUAD then 4 else 3) ∧
    (∀ (k : Nat) (fc : Face), s.face_array[k]? = some fc →
      (s.index_array.drop (k * (zero_tuple s.draw_mode).length)).take
          ((zero_tuple s.draw_mode).length) =
        (if truthy fc.visible then fc.index_array else zero_tuple s.draw_mode)) ∧
    (∀ fa₂ : List Face,
      fa₂.map Face.index_array = s.face_array.map Face.index_array →
      (Surface.index_array { s with face_array := fa₂ }).length =
        s.index_array.length) := by
  have hW : ∀ fc ∈ s.face_array,
      fc.index_array.length = (zero_tuple s.draw_mode).length := by
    intro fc hfc
    have hmem : fc.index_array ∈ s.face_array.map Face.index_array :=
      List.mem_map_of_mem _ hfc
    rw [hgen] at hmem
    obtain ⟨fc₂, hfc₂, heq⟩ := List.mem_map.mp hmem
    rw [← heq]
    exact generate_width s fc₂ hfc₂
  have hblocks : ∀ l ∈ s.face_array.map (fun face =>
      if truthy face.visible then face.index_array else zero_tuple s.draw_mode),
      l.length = (zero_tuple s.draw_mode).length := by
    intro l hl
    obtain ⟨fc, hfc, rfl⟩ := List.mem_map.mp hl
    by_cases h : truthy fc.visible <;> simp [h, hW fc hfc]
  refine ⟨?_, ?_, ?_, ?_⟩
  · rw [Surface.index_array, flatten_uniform_length _ _ hblocks, List.length_map]
    rfl
  · by_cases h : s.draw_mode = QUAD <;> simp [zero_tuple, h]
  · intro k fc hk
    refine flatten_uniform_block _ _ k _ hblocks ?_
    rw [List.getElem?_map, hk]
    rfl
  · intro fa₂ hfa
    have hW₂ : ∀ fc ∈ fa₂,
        fc.index_array.length = (zero_tuple s.draw_mode).length := by
      intro fc hfc
      have hmem : fc.index_array ∈ fa₂.map Face.index_array :=
        List.mem_map_of_mem _ hfc
      rw [hfa] at hmem
      obtain ⟨fc₂, hfc₂, heq⟩ := List.mem_map.mp hmem
      rw [← heq]
      exact hW fc₂ hfc₂
    have hblocks₂ : ∀ l ∈ fa₂.map (fun face =>
        if truthy face.visible then face.index_array else zero_tuple s.draw_mode),
        l.length = (zero_tuple s.draw_mode).length := by
      intro l hl
      obtain ⟨fc, hfc, rfl⟩ := List.mem_map.mp hl
      by_cases h : truthy fc.visible <;> simp [h, hW₂ fc hfc]
    have hlen : fa₂.length = s.face_array.length := by
      have := congrArg List.length hfa
      simpa using this
    rw [Surface.index_array, Surface.index_array,
      flatten_uniform_length _ _ hblocks₂, flatten_uniform_length _ _ hblocks]
    simp [hlen]

theorem apply_vis_take (a : List Int) (l : List Face) :
    apply_vis a 0 l = apply_vis (a.take l.length) 0 l := by
  apply apply_vis_congr
  intro t ht
  rw [List.getElem?_take]
  simp [ht]

/-- C5: calling `Filter.apply` twice in succession with an unchanged mask
yields the same state — hence the same face visibilities and the same
`index_array()` — as calling it once: apply is a full overwrite of
visibility, never cumulative with prior state. -/
theorem C5_apply_idempotent (fl : Filter) :
    Filter.apply (Filter.apply fl) = Filter.apply fl ∧
    (Filter.apply (Filter.apply fl)).surface.index_array =
      (Filter.apply fl).surface.index_array := by
  have h : Filter.apply (Filter.apply fl) = Filter.apply fl := by
    simp [Filter.apply, apply_vis_overwrite]
  exact ⟨h, by rw [h]⟩

/-- C6 counterexample: the filter with mask `[0, 1, 0, 1]` on the freshly
generated (all-visible) 3×3 QUAD surface satisfies the stated conditions —
mask elements in `{0, 1}` and mask length equal to the face count (this is
the reachable state after a `list 0 1 0 1` message followed by `dim 3 3`,
which regenerates the faces but leaves the mask untouched) — yet reversing
twice does not restore the original `index_array()`: it yields the
mask-applied array instead of the all-visible one. -/
theorem C6_counterexample :
    (∀ b ∈ ({ mask := [0, 1, 0, 1], surface := surface33quad } : Filter).mask,
      b = 0 ∨ b = 1) ∧
    ({ mask := [0, 1, 0, 1], surface := surface33quad } : Filter).mask.length =
      ({ mask := [0, 1, 0, 1], surface := surface33quad } : Filter).surface.face_count ∧
    ¬(reverse_msg (reverse_msg
        { mask := [0, 1, 0, 1], surface := surface33quad })).surface.index_array =
      ({ mask := [0, 1, 0, 1], surface := surface33quad } : Filter).surface.index_array := by
  decide

/-- C6 amended: for a filter whose mask is a 0/1 vector of length
`face_count()`, performing the reverse operation twice always restores the
original mask, and the resulting state is exactly `Filter.apply` of the
original filter — so the original `index_array()` is also restored precisely
when the filter is in a post-apply state (face visibilities consistent with
its mask), which every `generate`/`list`/`reverse` command leaves behind. -/
theorem C6_reverse_amended (fl : Filter)
    (hb : ∀ b ∈ fl.mask, b = 0 ∨ b = 1)
    (hlen : fl.mask.length = fl.surface.face_count) :
    (reverse_msg (reverse_msg fl)).mask = fl.mask ∧
    reverse_msg (reverse_msg fl) = Filter.apply fl ∧
    (Filter.apply fl = fl →
      (reverse_msg (reverse_msg fl)).surface.index_array =
        fl.surface.index_array) := by
  have hmm : (fl.mask.map (fun bit => 1 - bit)).map (fun bit => 1 - bit) =
      fl.mask := by
    rw [List.map_map]
    have hid : ∀ b ∈ fl.mask,
        ((fun bit => (1 : Int) - bit) ∘ (fun bit => (1 : Int) - bit)) b = b := by
      intro b hb₂
      rcases hb b hb₂ with h | h <;> simp [h]
    rw [List.map_congr_left hid]
    simp
  have hmain : reverse_msg (reverse_msg fl) = Filter.apply fl := by
    simp only [reverse_msg, Filter.apply, hmm, apply_vis_overwrite]
  refine ⟨by rw [hmain]; rfl, hmain, ?_⟩
  intro happ
  rw [hmain, happ]

/-- Witness for the amended C6: on the 3×3 QUAD surface with mask
`[0, 1, 0, 1]` applied (a post-apply state), reversing twice restores both
the mask and the index array. -/
theorem C6_amended_witness :
    (reverse_msg (reverse_msg fl33applied)).mask = fl33applied.mask ∧
    (reverse_msg (reverse_msg fl33applied)).surface.index_array =
      fl33applied.surface.index_array := by
  have h := C6_reverse_amended fl33applied (by decide) (by decide)
  exact ⟨h.1, h.2.2 (by decide)⟩

/-- C7 counterexample: on the 3×3 QUAD surface (face count 4), the `list`
message with the length-1 mask `[1]` does not fail: `apply` proceeds,
leaving face 0 visible and hiding faces 1..3, and the draw flag is set. -/
theorem C7_counterexample :
    g33.surface.face_count = 4 ∧
    (list_msg [1] g33).surface.index_array =
      [1, 0, 3, 4, 0, 0, 0, 0, 0, 0, 0, 0, 0, 0, 0, 0] ∧
    (list_msg [1] g33).draw = true := by
  decide

/-- C7 amended: `apply` raises no mask-length-mismatch condition: the `list`
message proceeds for any mask length, preserving the face count and storing
the mask verbatim; each face at an index at or beyond the mask length gets
visibility `undefined`, and mask elements beyond the face count have no
effect on the surface. -/
theorem C7_amended (g : GState) (a : List Int) :
    (list_msg a g).surface.face_count = g.surface.face_count ∧
    (list_msg a g).mask = a ∧
    (∀ k : Nat, a.length ≤ k →
      ((list_msg a g).surface.face_array[k]?).map Face.visible =
        (g.surface.face_array[k]?).map (fun _ => (none : Option Int))) ∧
    (list_msg a g).surface = (list_msg (a.take g.surface.face_count) g).surface := by
  refine ⟨?_, rfl, ?_, ?_⟩
  · simp [list_msg, Filter.apply, Surface.face_count, apply_vis_length]
  · intro k hk
    have h := apply_vis_getElem? a 0 g.surface.face_array k
    have hnone : a[0 + k]? = none := List.getElem?_eq_none (by omega)
    rw [hnone] at h
    show ((apply_vis a 0 g.surface.face_array)[k]?).map Face.visible = _
    rw [h]
    cases g.surface.face_array[k]? <;> rfl
  · show { g.surface with face_array := apply_vis a 0 g.surface.face_array } = _
    simp only [list_msg, Filter.apply, Surface.face_count]
    rw [← apply_vis_take]

/-- Witness for the amended C7: with mask `[1]` on the 3×3 QUAD surface,
face 2 ends with visibility `undefined`. -/
theorem C7_amended_witness :
    ((list_msg [1] g33).surface.face_array[2]?).map Face.visible =
      (g33.surface.face_array[2]?).map (fun _ => (none : Option Int)) :=
  (C7_amended g33 [1]).2.2.1 2 (by decide)

/-- C8 counterexample: the dimension message `[1, 1]`, both of whose
components are below 2, is accepted rather than rejected: the surface
dimension becomes `(1, 1)`, the face array regenerates to empty, and the
state changes. -/
theorem C8_counterexample :
    (dim_msg [1, 1] g33).surface.dim = (1, 1) ∧
    (dim_msg [1, 1] g33).surface.face_array = [] ∧
    ¬dim_msg [1, 1] g33 = g33 := by
  decide

/-- C8 amended: a dimension message is rejected — silently, leaving the
whole state unchanged and raising no error condition — exactly when it does
not consist of two components that are both greater than zero; otherwise
(components equal to 1 included) the dimension is stored, the surface is
regenerated and the draw flag is raised. -/
theorem C8_amended (g : GState) (a : List Int) :
    (¬dim_ok a → dim_msg a g = g) ∧
    (dim_ok a →
      (dim_msg a g).surface =
        Surface.generate
          { g.surface with dim := ((a.getD 0 0).toNat, (a.getD 1 0).toNat) } ∧
      (dim_msg a g).draw = true ∧ (dim_msg a g).mask = g.mask) := by
  constructor
  · intro h
    simp [dim_msg, h]
  · intro h
    simp [dim_msg, h]

/-- Witness for the amended C8: `[0, 3]` is ignored, while `[1, 1]` is
accepted and sets the dimension to `(1, 1)`. -/
theorem C8_amended_witness :
    dim_msg [0, 3] g33 = g33 ∧ (dim_msg [1, 1] g33).surface.dim = (1, 1) := by
  constructor
  · exact (C8_amended g33 [0, 3]).1 (by decide)
  · have h := ((C8_amended g33 [1, 1]).2 (by decide)).1
    rw [h]
    decide

/-- C9: `spiral` runs the non-ordered traversal of `Filter.generate`, in
which the shared loop counter equals the running invocation count; the
generated mask has length `face_count()` and its element at each position
`k < face_count()` is `0` when `k < cols * (k mod rows)` and `1` otherwise.
(The hypothesis `1 ≤ rows` keeps the `Nat` remainder faithful to the
JavaScript `%`.) -/
theorem C9_spiral (fl : Filter) (cols rows : Nat)
    (hdim : fl.surface.dim = (cols, rows)) (hr : 1 ≤ rows) :
    (spiral_msg fl).mask.length = fl.surface.face_count ∧
    (∀ k : Nat, k < fl.surface.face_count →
      (spiral_msg fl).mask[k]? =
        some (if k < cols * (k % rows) then 0 else 1)) := by
  constructor
  · show ((List.range fl.surface.face_count).map (spiral_pred fl.surface)).length = _
    simp
  · intro k hk
    show ((List.range fl.surface.face_count).map (spiral_pred fl.surface))[k]? = _
    rw [List.getElem?_map, List.getElem?_range hk]
    simp [spiral_pred, hdim]

/-- Witness for C9 on the 3×3 QUAD surface: mask element 1 is `0`. -/
theorem C9_spiral_witness :
    (spiral_msg { mask := [], surface := surface33quad }).mask[1]? = some 0 := by
  have h := (C9_spiral { mask := [], surface := surface33quad } 3 3
    (by decide) (by decide)).2 1 (by decide)
  simpa using h

/-- C10: `Filter.apply` always completes: it iterates over the faces of the
surface (not over the mask), so the face count is preserved, face `k`
receives visibility `mask[k]` — the out-of-bounds read `undefined` when `k`
is at or beyond the mask length, which `truthy` (hence `index_array`)
treats as hidden — and mask elements at or beyond the face count are
silently ignored. -/
theorem C10_apply_oob (fl : Filter) :
    (Filter.apply fl).surface.face_count = fl.surface.face_count ∧
    (∀ k : Nat, (Filter.apply fl).surface.face_array[k]? =
      (fl.surface.face_array[k]?).map (fun fc =>
        { fc with visible := fl.mask[k]? })) ∧
    (∀ k : Nat, fl.mask.length ≤ k →
      ((Filter.apply fl).surface.face_array[k]?).map Face.visible =
        (fl.surface.face_array[k]?).map (fun _ => (none : Option Int))) ∧
    truthy none = false ∧
    (Filter.apply fl).surface =
      (Filter.apply { fl with mask := fl.mask.take fl.surface.face_count }).surface := by
  refine ⟨?_, ?_, ?_, rfl, ?_⟩
  · simp [Filter.apply, Surface.face_count, apply_vis_length]
  · intro k
    have h := apply_vis_getElem? fl.mask 0 fl.surface.face_array k
    simpa [Filter.apply] using h
  · intro k hk
    have h := apply_vis_getElem? fl.mask 0 fl.surface.face_array k
    have hnone : fl.mask[0 + k]? = none := List.getElem?_eq_none (by omega)
    rw [hnone] at h
    show ((apply_vis fl.mask 0 fl.surface.face_array)[k]?).map Face.visible = _
    rw [h]
    cases fl.surface.face_array[k]? <;> rfl
  · show { fl.surface with face_array := apply_vis fl.mask 0 fl.surface.face_array } = _
    simp only [Filter.apply, Surface.face_count]
    rw [← apply_vis_take]

/-- Witness for C10: with mask `[1]` on the 3×3 QUAD surface, face 3 gets
visibility `undefined`. -/
theorem C10_witness :
    ((Filter.apply { mask := [1], surface := surface33quad }).surface.face_array[3]?).map
        Face.visible =
      (({ mask := [1], surface := surface33quad } : Filter).surface.face_array[3]?).map
        (fun _ => (none : Option Int)) :=
  (C10_apply_oob { mask := [1], surface := surface33quad }).2.2.1 3 (by decide)

/-- Witness for C1 at `dim = (3, 3)`, face `(1, 1)`. -/
theorem C1_quad_grid_witness :
    (Surface.quad_grid { dim := (3, 3), face_array := [], draw_mode := QUAD }).face_count =
      2 * 2 ∧
    ((Surface.quad_grid
        { dim := (3, 3), face_array := [], draw_mode := QUAD }).face_array[1 * 2 + 1]?).map
        Face.index_array = some [5, 4, 7, 8] := by
  have h := C1_quad_grid { dim := (3, 3), face_array := [], draw_mode := QUAD } 3 3
    rfl (by decide) (by decide) rfl
  constructor
  · rw [h.1]
  · have h2 := h.2.1 1 1 (by decide) (by decide)
    simpa using h2

/-- Witness for C2 at `dim = (3, 3)`: face count 8, and the first pass-2 face
(`i = 2`, `j = 3`, flat position 4) is `[3, 6, 4]`. -/
theorem C2_tri_grid_witness :
    (Surface.tri_grid { dim := (3, 3), face_array := [], draw_mode := TRI }).face_count =
      2 * (2 * 2) ∧
    ((Surface.tri_grid
        { dim := (3, 3), face_array := [], draw_mode := TRI }).face_array[4]?).map
        Face.index_array = some [3, 6, 4] := by
  have h := C2_tri_grid { dim := (3, 3), face_array := [], draw_mode := TRI } 3 3
    rfl (by decide) (by decide) rfl
  constructor
  · rw [h.1]
  · have h2 := h.2.2.1 2 3 (by decide) (by decide) (by decide) (by decide)
    simpa using h2

/-- Witness for C3 on the 3×3 TRI surface: the callback runs 8 times. -/
theorem C3_generate_ordered_witness :
    (Filter.generate_ordered (fun i j => if i = j then 1 else 0) flTri).mask.length = 8 := by
  have h := C3_generate_ordered (fun i j => if i = j then 1 else 0) flTri 3 3
    (by decide) (by decide) (by decide) (Or.inr (by decide)) (by decide)
  rw [h.1]
  decide

/-- Witness for C4 on the 3×3 QUAD surface with faces 0 and 2 hidden:
the index array still has length `4 * 4`. -/
theorem C4_index_array_witness : s33masked.index_array.length = 4 * 4 := by
  have h := C4_index_array s33masked (by decide)
  rw [h.1]
  decide

end IndexArray
